import Mathlib

/-!
Verification development for the worker-activity-detection application.

The application consists of:
* `preprocessing.py` — a dataset builder (`load_data`) that scans a directory
  of images, labels each file by case-insensitive substring match of its
  filename against two fixed vocabularies (`idle_classes`, `active_classes`),
  resizes decoded images to a square resolution and returns parallel arrays;
* `train_model.py` — an offline trainer performing 5-fold stratified
  cross-validation of a logistic-regression classifier over features, then
  refitting on all data and persisting the classifier and feature mean;
* `livevideo.py` — a live-camera inference loop (`LiveVideoPage.update_frame`)
  keeping a running tally (`active_count`, `idle_count`) and a status display;
* `mp4video.py` — a file-playback page (`MP4VideoPage`) with a timer-driven
  `update_frame`/`analyze_frame` loop, a slider `seek_frame` handler, and a
  worker thread (`VideoProcessor.run`) that samples every 5th frame.

Everything below is a shallow embedding of that code: pure Python functions
become Lean functions; the GUI event handlers become explicit state-passing
step functions over record states; external effects (frame reads, classifier
predictions, image decodes) become explicit inputs.  Qt signal re-entrancy
(e.g. `QSlider.setValue` re-firing `valueChanged`) is not modelled; each
handler is modelled as the sequence of explicit calls in its body.
-/

/- ===== Python string primitives ===== -/

/-- Python `str.lower()`: per-character lowering (the vocabulary and the
filenames in question are ASCII, where `Char.toLower` agrees with Python). -/
def pyLower (s : String) : String := ⟨s.data.map Char.toLower⟩

/-- Boolean contiguous-substring test on character lists: `charsContains n h`
is Python's `n in h`. -/
def charsContains (needle : List Char) : List Char → Bool
  | [] => needle.isPrefixOf []
  | b :: bs => needle.isPrefixOf (b :: bs) || charsContains needle bs

/-- Python's `needle in haystack` on strings. -/
def pyIn (needle haystack : String) : Bool := charsContains needle.data haystack.data

/-- Python's `s.endswith(suffix)` on strings (via the character lists, so
that it evaluates by kernel reduction). -/
def pyEndsWith (s suffix : String) : Bool :=
  suffix.data.reverse.isPrefixOf s.data.reverse

/- ===== preprocessing.py ===== -/

/-- `preprocessing.py` lines 7–10: the idle-activity vocabulary. -/
def idle_classes : List String :=
  ["writing_on_a_book", "reading", "drinking", "sleeping",
   "talking_on_phone", "smoking", "brushing_teeth"]

/-- `preprocessing.py` lines 12–16: the active-activity vocabulary. -/
def active_classes : List String :=
  ["fixing_a_car", "playing_guitar", "cleaning_floor",
   "cooking", "riding_bike", "running", "cutting_vegetables",
   "using_computer", "hammering", "pouring_liquid"]

/-- `any(idle_class in img_file.lower() for idle_class in idle_classes)`. -/
def idleMatches (img_file : String) : Bool :=
  idle_classes.any (fun c => pyIn c (pyLower img_file))

/-- `any(active_class in img_file.lower() for active_class in active_classes)`. -/
def activeMatches (img_file : String) : Bool :=
  active_classes.any (fun c => pyIn c (pyLower img_file))

/-- The label assignment of `load_data` (`preprocessing.py` lines 39–45):
idle check first, then active check, otherwise the file is skipped. -/
def labelOf (img_file : String) : Option Nat :=
  if idleMatches img_file then some 0
  else if activeMatches img_file then some 1
  else none

/-- An image, abstracted to its shape (rows × columns); pixel contents play
no role in any verified property. -/
structure Image where
  height : Nat
  width : Nat
deriving DecidableEq, Repr

/-- `cv2.resize(img, (img_size, img_size))`: the result has square shape. -/
def cvResize (_img : Image) (img_size : Nat) : Image := ⟨img_size, img_size⟩

/-- `f.lower().endswith(('.jpg', '.jpeg', '.png'))` from `load_data` line 27. -/
def isImageFile (f : String) : Bool :=
  pyEndsWith (pyLower f) ".jpg" || pyEndsWith (pyLower f) ".jpeg" ||
    pyEndsWith (pyLower f) ".png"

/-- The body of the `for img_file in image_files` loop of `load_data`
(`preprocessing.py` lines 35–56): compute the label (idle check first,
`continue` when neither vocabulary matches), decode the image (`none` models
both `cv2.imread` returning `None` and a raised exception — either skips the
file), and on success append the resized image and the label to the parallel
accumulators `X`, `y`. -/
def loadStep (img_size : Nat) (XY : List Image × List Nat) (e : String × Option Image) :
    List Image × List Nat :=
  match labelOf e.1 with
  | none => XY
  | some label =>
    match e.2 with
    | none => XY
    | some img => (XY.1 ++ [cvResize img img_size], XY.2 ++ [label])

/-- `preprocessing.load_data`.  The filesystem is an explicit input: `none`
models a missing directory, `some entries` a directory listing pairing each
filename with the result of `cv2.imread` on it.  Faithful to the source:
filter to supported extensions, return empty arrays when the directory is
missing or holds no image file, then run the per-file loop. -/
def load_data (listing : Option (List (String × Option Image))) (img_size : Nat) :
    List Image × List Nat :=
  match listing with
  | none => ([], [])
  | some entries =>
    let image_files := entries.filter (fun e => isImageFile e.1)
    if image_files.isEmpty then ([], [])
    else image_files.foldl (loadStep img_size) ([], [])

/-- The number of files with a supported image extension in the directory. -/
def imageFileCount (listing : Option (List (String × Option Image))) : Nat :=
  match listing with
  | none => 0
  | some entries => (entries.filter (fun e => isImageFile e.1)).length

/- ===== train_model.py ===== -/

/-- A feature vector (one row of the MobileNetV2 embedding matrix). -/
abbrev FeatVec := List ℚ

/-- `sklearn.metrics.accuracy_score`: the fraction of positions where the
prediction equals the truth.  (ℚ division is total; the empty case yields
`0/0 = 0`.) -/
def accuracy_score (y_true y_pred : List Nat) : ℚ :=
  (((y_true.zip y_pred).countP (fun p => p.1 == p.2) : ℚ)) / (y_true.length : ℚ)

/-- Numpy fancy indexing `xs[idx]` (indices produced by the splitter are
in range, out-of-range indices are dropped). -/
def npSelect {α : Type} (xs : List α) (idx : List Nat) : List α :=
  idx.filterMap (fun i => xs.get? i)

/-- `features.mean(axis=0)`: the column-wise mean of the feature matrix
(`train_model.py` line 48). -/
def featureMean (features : List FeatVec) : List ℚ :=
  match features with
  | [] => []
  | f :: _ =>
    (List.range f.length).map
      (fun j => ((features.map (fun row => row.getD j 0)).sum) / (features.length : ℚ))

/-- `StratifiedKFold(n_splits=5, shuffle=True, random_state=42)`
(`train_model.py` line 21): the configuration constants of the splitter. -/
def n_splits : Nat := 5

/-- The `shuffle=True` flag of the splitter configuration. -/
def skf_shuffle : Bool := true

/-- The fixed shuffle seed `random_state=42` of the splitter configuration. -/
def random_state : Nat := 42

/-- The cross-validation loop plus final refit of `train_model.py` lines
21–48.  `LogisticRegression.fit`/`predict` and the folds produced by
`skf.split(features, y)` are external library calls, passed in as oracles:
`fit`/`predict` are opaque functions and `folds` is the list of
(train-index, test-index) pairs the splitter yields.  For each fold the
script fits on the train rows, predicts the test rows, and records the
accuracy; afterwards it refits on all rows (`clf_final`) and persists
`clf_final` together with the column-wise feature mean — modelled by
returning the triple (accuracies, clf_final, feature mean). -/
def trainModelRun {C : Type} (fit : List FeatVec → List Nat → C)
    (predict : C → List FeatVec → List Nat)
    (features : List FeatVec) (y : List Nat)
    (folds : List (List Nat × List Nat)) :
    List ℚ × C × List ℚ :=
  let accuracies := folds.map (fun fold =>
    let X_train := npSelect features fold.1
    let X_test := npSelect features fold.2
    let y_train := npSelect y fold.1
    let y_test := npSelect y fold.2
    let clf := fit X_train y_train
    let y_pred := predict clf X_test
    accuracy_score y_test y_pred)
  let clf_final := fit features y
  (accuracies, clf_final, featureMean features)

/- ===== The inference loops (livevideo.py / mp4video.py) ===== -/

/-- The displayed prediction status (`pred_label.setText` values).  The
literal strings of the source are abstracted to their five distinct values:
`initializing` is livevideo's initial "Initializing...", `waitingForVideo` is
mp4video's initial "Waiting for video...", and the remaining three are the
"ACTIVE WORKER" / "IDLE WORKER DETECTED" / "Prediction Error" texts common to
both pages. -/
inductive Status
  | initializing
  | waitingForVideo
  | activeWorker
  | idleWorker
  | predictionError
deriving DecidableEq, Repr

/-- The outcome of the preprocess/extract/predict sequence on one frame:
either some call in it raises, or it returns a prediction `p` (for the real
classifier `p` would be the binary class). -/
inductive ClassifyOutcome
  | raises
  | pred (p : Nat)
deriving DecidableEq, Repr

/-- One timer tick's interaction with the capture device: `cap.read()`
fails, or returns a frame whose (potential) classification outcome is
`oc`. -/
inductive TickInput
  | readFail
  | readOk (oc : ClassifyOutcome)
deriving DecidableEq, Repr

/-- The mutable state of `LiveVideoPage` touched by `update_frame`:
the two tally counters, the displayed prediction status, and a count of
frames rendered to the video label (`setPixmap` calls). -/
structure LiveState where
  active_count : Nat
  idle_count : Nat
  status : Status
  rendered : Nat
deriving DecidableEq, Repr

/-- `LiveVideoPage.__init__`: both counters zero, status label showing the
initial text, nothing rendered yet. -/
def initLiveState : LiveState := ⟨0, 0, Status.initializing, 0⟩

/-- The body of the `try` block of `LiveVideoPage.update_frame`
(`livevideo.py` lines 325–403): prediction 1 sets the active status and
increments `active_count`; any other prediction sets the idle status and
increments `idle_count`; a raised exception is caught and sets the error
status, leaving both counters unchanged. -/
def liveClassify (s : LiveState) (oc : ClassifyOutcome) : LiveState :=
  match oc with
  | ClassifyOutcome.raises => { s with status := Status.predictionError }
  | ClassifyOutcome.pred p =>
    if p = 1 then
      { s with status := Status.activeWorker, active_count := s.active_count + 1 }
    else
      { s with status := Status.idleWorker, idle_count := s.idle_count + 1 }

/-- `LiveVideoPage.update_frame` (`livevideo.py` lines 315–411): a failed
read returns early; otherwise, when the classifier and extractor are loaded
(`if clf and feature_extractor:`), the frame is classified, and in every
case the frame is then rendered (`setPixmap`). -/
def liveUpdateFrame (modelLoaded : Bool) (s : LiveState) (t : TickInput) : LiveState :=
  match t with
  | TickInput.readFail => s
  | TickInput.readOk oc =>
    let s1 := if modelLoaded then liveClassify s oc else s
    { s1 with rendered := s1.rendered + 1 }

/-- A sequence of timer ticks applied to the live page. -/
def liveRun (modelLoaded : Bool) (s : LiveState) (ticks : List TickInput) : LiveState :=
  ticks.foldl (liveUpdateFrame modelLoaded)  s

/-- The number of ticks whose frame was classified without a raised
exception. -/
def classifiedOkCount : List TickInput → Nat
  | [] => 0
  | TickInput.readOk (ClassifyOutcome.pred _) :: rest => classifiedOkCount rest + 1
  | _ :: rest => classifiedOkCount rest

/-- The number of ticks that delivered a frame (each such frame is
rendered). -/
def readOkCount : List TickInput → Nat
  | [] => 0
  | TickInput.readOk _ :: rest => readOkCount rest + 1
  | _ :: rest => readOkCount rest

/-- The mutable state of `MP4VideoPage` touched by `update_frame`,
`analyze_frame`, `seek_frame` and `stop_video`: tallies, status, playback
position and flag, plus counts of rendered frames (`display_frame` calls)
and of frames run through the classification path (`analyze_frame` calls
that enter the `if clf and feature_extractor:` block). -/
structure MP4State where
  active_count : Nat
  idle_count : Nat
  status : Status
  current_frame : Nat
  is_playing : Bool
  rendered : Nat
  classified : Nat
deriving DecidableEq, Repr

/-- `MP4VideoPage.__init__`: counters zero, initial status text, frame 0,
not playing. -/
def initMP4State : MP4State := ⟨0, 0, Status.waitingForVideo, 0, false, 0, 0⟩

/-- The page state right after `load_video` + `play_video` on a fresh page:
as initial, but playing. -/
def playMP4State : MP4State := { initMP4State with is_playing := true }

/-- `MP4VideoPage.analyze_frame` (`mp4video.py` lines 558–617): when the
classifier and extractor are loaded, the frame enters the classification
path (counted by `classified`); prediction 1 increments `active_count` with
the active status, any other prediction increments `idle_count` with the
idle status, and a raised exception is caught, setting the error status and
leaving both counters unchanged.  With no model loaded the call is a
no-op. -/
def analyzeFrame (modelLoaded : Bool) (oc : ClassifyOutcome) (s : MP4State) : MP4State :=
  if modelLoaded then
    let s1 := { s with classified := s.classified + 1 }
    match oc with
    | ClassifyOutcome.raises => { s1 with status := Status.predictionError }
    | ClassifyOutcome.pred p =>
      if p = 1 then
        { s1 with status := Status.activeWorker, active_count := s1.active_count + 1 }
      else
        { s1 with status := Status.idleWorker, idle_count := s1.idle_count + 1 }
  else s

/-- `MP4VideoPage.stop_video`: stop the timer and rewind to frame 0.  (The
re-display of frame 0 and the slider reset are rendering-only; the Qt
`valueChanged` signal that `setValue(0)` may re-fire is not modelled.) -/
def stopVideo (s : MP4State) : MP4State :=
  { s with is_playing := false, current_frame := 0 }

/-- `MP4VideoPage.update_frame` (`mp4video.py` lines 535–548), one timer
tick: only acts while playing (the capture handle is open whenever the page
is playing); a failed read stops playback; a successful read advances
`current_frame`, renders the frame (`display_frame`), analyzes it
(`analyze_frame`), and stops when the end of the file is reached. -/
def mp4UpdateFrame (modelLoaded : Bool) (total_frames : Nat) (s : MP4State)
    (t : TickInput) : MP4State :=
  if s.is_playing then
    match t with
    | TickInput.readFail => stopVideo s
    | TickInput.readOk oc =>
      let s1 := { s with current_frame := s.current_frame + 1, rendered := s.rendered + 1 }
      let s2 := analyzeFrame modelLoaded oc s1
      if total_frames - 1 ≤ s2.current_frame then stopVideo s2 else s2
  else s

/-- A sequence of playback timer ticks applied to the MP4 page. -/
def mp4Run (modelLoaded : Bool) (total_frames : Nat) (s : MP4State)
    (ticks : List TickInput) : MP4State :=
  ticks.foldl (mp4UpdateFrame modelLoaded total_frames) s

/-- One slider interaction with the capture device: the capture is closed
(handler body skipped), the read at the sought position fails, or it
returns a frame with classification outcome `oc`. -/
inductive SeekInput
  | capClosed
  | readFail
  | readOk (oc : ClassifyOutcome)
deriving DecidableEq, Repr

/-- `MP4VideoPage.seek_frame` (`mp4video.py` lines 526–533), fired on every
slider `valueChanged`: when the capture is open, reposition to
`frame_number`; on a successful read, render the frame and analyze it. -/
def seekFrame (modelLoaded : Bool) (frame_number : Nat) (inp : SeekInput)
    (s : MP4State) : MP4State :=
  match inp with
  | SeekInput.capClosed => s
  | SeekInput.readFail => { s with current_frame := frame_number }
  | SeekInput.readOk oc =>
    analyzeFrame modelLoaded oc
      { s with current_frame := frame_number, rendered := s.rendered + 1 }

/-- The running tally total of the MP4 page. -/
def tallySum (s : MP4State) : Nat := s.active_count + s.idle_count

/-- The running tally total of the live page. -/
def liveTallySum (s : LiveState) : Nat := s.active_count + s.idle_count

/- ===== VideoProcessor (mp4video.py worker thread) ===== -/

/-- The prediction emitted by `VideoProcessor.run` for one sampled frame
(`mp4video.py` lines 186–204): if preprocessing or prediction raises, the
`except` branch emits 0; otherwise, with the model loaded the classifier's
prediction is emitted, and without it `pred = 0` ("default to idle"). -/
def emitPred (modelLoaded : Bool) (oc : ClassifyOutcome) : Nat :=
  match oc with
  | ClassifyOutcome.raises => 0
  | ClassifyOutcome.pred p => if modelLoaded then p else 0

/-- The `while self.is_running` loop of `VideoProcessor.run`
(`mp4video.py` lines 175–209), processing the remaining frames of the file
with the current `frame_count`: a frame is sampled exactly when
`frame_count % 5 == 0`, and each sampled frame causes exactly one
`frame_processed.emit(frame, pred, frame_count)`, recorded as the pair
(frame index, emitted prediction).  Unsampled frames are neither classified
nor emitted. -/
def vpGo (modelLoaded : Bool) : Nat → List ClassifyOutcome → List (Nat × Nat)
  | _, [] => []
  | frame_count, oc :: rest =>
    if frame_count % 5 = 0 then
      (frame_count, emitPred modelLoaded oc) :: vpGo modelLoaded (frame_count + 1) rest
    else
      vpGo modelLoaded (frame_count + 1) rest

/-- `VideoProcessor.run` on a whole file: frame counting starts at 0. -/
def videoProcessorRun (modelLoaded : Bool) (frames : List ClassifyOutcome) :
    List (Nat × Nat) :=
  vpGo modelLoaded 0 frames

/- ===== Theorems ===== -/

/-- C2: a filename matching the idle vocabulary and not the active one gets
label 0; one matching the active vocabulary and not the idle one gets label 1;
one matching neither is excluded; and one matching both gets label 0, because
the idle check runs first. -/
theorem c2_label_assignment (f : String) :
    (idleMatches f = true → activeMatches f = false → labelOf f = some 0) ∧
    (activeMatches f = true → idleMatches f = false → labelOf f = some 1) ∧
    (idleMatches f = false → activeMatches f = false → labelOf f = none) ∧
    (idleMatches f = true → activeMatches f = true → labelOf f = some 0) := by
  refine ⟨fun hi _ => ?_, fun ha hi => ?_, fun hi ha => ?_, fun hi _ => ?_⟩ <;>
    simp [labelOf, *]

/-- C2 witness: the four cases at concrete filenames (`reading` is idle
vocabulary, `running` is active vocabulary; `reading_running.jpg` matches
both). -/
theorem c2_label_assignment_witness :
    labelOf "reading_01.jpg" = some 0 ∧
    labelOf "running_02.jpg" = some 1 ∧
    labelOf "unknown_03.jpg" = none ∧
    labelOf "reading_running.jpg" = some 0 := by
  exact ⟨(c2_label_assignment "reading_01.jpg").1 (by decide) (by decide),
    (c2_label_assignment "running_02.jpg").2.1 (by decide) (by decide),
    (c2_label_assignment "unknown_03.jpg").2.2.1 (by decide) (by decide),
    (c2_label_assignment "reading_running.jpg").2.2.2 (by decide) (by decide)⟩

/-- Helper: one live tick with the model loaded moves the tally by one
exactly when the frame is classified without a raised exception. -/
theorem liveUpdateFrame_tally (s : LiveState) (t : TickInput) :
    liveTallySum (liveUpdateFrame true s t) =
      liveTallySum s + classifiedOkCount [t] := by
  rcases t with _ | (_ | p)
  · rfl
  · rfl
  · by_cases hp : p = 1 <;>
      simp [liveUpdateFrame, liveClassify, hp, liveTallySum, classifiedOkCount] <;> omega

/-- Helper: the tally total after a run of live ticks with the model loaded
is the starting total plus the number of error-free classifications. -/
theorem liveRun_tally (ticks : List TickInput) : ∀ s : LiveState,
    liveTallySum (liveRun true s ticks) = liveTallySum s + classifiedOkCount ticks := by
  induction ticks with
  | nil => intro s; rfl
  | cons t rest ih =>
    intro s
    have h1 : liveRun true s (t :: rest) = liveRun true (liveUpdateFrame true s t) rest := rfl
    rw [h1, ih (liveUpdateFrame true s t), liveUpdateFrame_tally]
    rcases t with _ | (_ | p) <;> simp [classifiedOkCount] <;> omega

/-- Helper: with no model loaded, a run of live ticks only renders the
delivered frames; nothing else in the state changes. -/
theorem liveRun_noModel (ticks : List TickInput) : ∀ s : LiveState,
    liveRun false s ticks = { s with rendered := s.rendered + readOkCount ticks } := by
  induction ticks with
  | nil => intro s; simp [liveRun, readOkCount]
  | cons t rest ih =>
    intro s
    have h1 : liveRun false s (t :: rest) = liveRun false (liveUpdateFrame false s t) rest := rfl
    rw [h1, ih (liveUpdateFrame false s t)]
    rcases t with _ | oc <;>
      simp [liveUpdateFrame, readOkCount, LiveState.mk.injEq] <;> omega

/-- C3: with the classifier and extractor loaded, prediction 1 increments
exactly `active_count` (with the active status), any other prediction
increments exactly `idle_count` (with the idle status), and after any
sequence of ticks the tally total equals the number of frames classified
without a raised exception; the MP4 page's `analyze_frame` moves the tally
by exactly one per error-free classification as well. -/
theorem c3_tally_invariant :
    (∀ s : LiveState, liveClassify s (ClassifyOutcome.pred 1) =
      { s with status := Status.activeWorker, active_count := s.active_count + 1 }) ∧
    (∀ (s : LiveState) (p : Nat), p ≠ 1 → liveClassify s (ClassifyOutcome.pred p) =
      { s with status := Status.idleWorker, idle_count := s.idle_count + 1 }) ∧
    (∀ (ticks : List TickInput) (s : LiveState),
      liveTallySum (liveRun true s ticks) = liveTallySum s + classifiedOkCount ticks) ∧
    (∀ (s : MP4State) (p : Nat),
      tallySum (analyzeFrame true (ClassifyOutcome.pred p) s) = tallySum s + 1) := by
  refine ⟨fun s => rfl, fun s p hp => by simp [liveClassify, hp],
    fun ticks s => liveRun_tally ticks s, fun s p => ?_⟩
  by_cases hp : p = 1 <;> simp [analyzeFrame, tallySum, hp] <;> omega

/-- C3 witness: a concrete non-1 prediction increments exactly the idle
counter. -/
theorem c3_tally_invariant_witness :
    liveClassify initLiveState (ClassifyOutcome.pred 0) =
      { initLiveState with status := Status.idleWorker, idle_count := initLiveState.idle_count + 1 } :=
  c3_tally_invariant.2.1 initLiveState 0 (by decide)

/-- C4: when the module-level model load failed (`clf` is `None`), any
sequence of ticks leaves both tallies at zero and the displayed status at
its initial no-prediction value, while every delivered frame is still
rendered. -/
theorem c4_no_model_degraded (ticks : List TickInput) :
    liveRun false initLiveState ticks =
      { active_count := 0, idle_count := 0, status := Status.initializing,
        rendered := readOkCount ticks } := by
  rw [liveRun_noModel]
  simp [initLiveState]

/-- C5: a raised prediction call sets the explicit error status for that
frame, leaves both tally counters unchanged, and the loop continues with the
subsequent ticks; the MP4 page's `analyze_frame` behaves the same way
(additionally counting the attempted classification). -/
theorem c5_prediction_error_recovery :
    (∀ s : LiveState,
      liveUpdateFrame true s (TickInput.readOk ClassifyOutcome.raises) =
        { s with status := Status.predictionError, rendered := s.rendered + 1 }) ∧
    (∀ (s : LiveState) (rest : List TickInput),
      liveRun true s (TickInput.readOk ClassifyOutcome.raises :: rest) =
        liveRun true { s with status := Status.predictionError, rendered := s.rendered + 1 } rest) ∧
    (∀ s : MP4State, analyzeFrame true ClassifyOutcome.raises s =
      { s with status := Status.predictionError, classified := s.classified + 1 }) :=
  ⟨fun _ => rfl, fun _ _ => rfl, fun _ => rfl⟩

/-- Helper: one MP4 playback tick with the model loaded changes the
classified-frame count by exactly as much as the rendered-frame count. -/
theorem mp4UpdateFrame_classified_rendered (total : Nat) (s : MP4State) (t : TickInput) :
    (mp4UpdateFrame true total s t).classified + s.rendered =
      (mp4UpdateFrame true total s t).rendered + s.classified := by
  by_cases hp : s.is_playing
  · rcases t with _ | (_ | p)
    · simp only [mp4UpdateFrame, hp, if_true, stopVideo]
      omega
    · simp only [mp4UpdateFrame, hp, if_true, analyzeFrame, stopVideo]
      split <;> (simp; omega)
    · by_cases h1 : p = 1 <;>
        simp only [mp4UpdateFrame, hp, if_true, analyzeFrame, stopVideo, h1,
          if_false, ite_true, ite_false] <;>
        split <;> (simp [h1]; omega)
  · simp only [mp4UpdateFrame, hp, if_false, Bool.false_eq_true, ite_false]
    omega

/-- Helper: over any run of MP4 playback ticks with the model loaded, the
classified count and the rendered count advance in lockstep. -/
theorem mp4Run_classified_rendered (total : Nat) (ticks : List TickInput) :
    ∀ s : MP4State,
    (mp4Run true total s ticks).classified + s.rendered =
      (mp4Run true total s ticks).rendered + s.classified := by
  induction ticks with
  | nil =>
    intro s
    simp only [mp4Run, List.foldl_nil]
    omega
  | cons t rest ih =>
    intro s
    have h1 : mp4Run true total s (t :: rest) =
        mp4Run true total (mp4UpdateFrame true total s t) rest := rfl
    have h2 := mp4UpdateFrame_classified_rendered total s t
    have h3 := ih (mp4UpdateFrame true total s t)
    rw [h1]
    omega

/-- Helper: the worker thread emits one pair per sampled frame; starting the
frame counter at `fc`, the number of sampled frames among the next `n` is
the number of multiples of 5 in `[fc, fc + n)`. -/
theorem vpGo_length (m : Bool) (ocs : List ClassifyOutcome) : ∀ fc : Nat,
    (vpGo m fc ocs).length = (fc + ocs.length + 4) / 5 - (fc + 4) / 5 := by
  induction ocs with
  | nil => intro fc; simp [vpGo]
  | cons oc rest ih =>
    intro fc
    by_cases h : fc % 5 = 0 <;>
      simp only [vpGo, h, if_true, if_false, ite_true, ite_false,
        List.length_cons, ih (fc + 1)] <;> omega

/-- Helper: every pair the worker thread emits carries a frame index that is
a multiple of 5 and lies within the processed range. -/
theorem vpGo_mem (m : Bool) (ocs : List ClassifyOutcome) : ∀ fc : Nat,
    ∀ e ∈ vpGo m fc ocs, e.1 % 5 = 0 ∧ fc ≤ e.1 ∧ e.1 < fc + ocs.length := by
  induction ocs with
  | nil => intro fc e he; simp [vpGo] at he
  | cons oc rest ih =>
    intro fc e he
    by_cases h : fc % 5 = 0
    · simp only [vpGo, h, ite_true, List.mem_cons] at he
      rcases he with rfl | he
      · exact ⟨h, Nat.le_refl fc, by simp⟩
      · obtain ⟨h1, h2, h3⟩ := ih (fc + 1) e he
        exact ⟨h1, by omega, by simp at h3 ⊢; omega⟩
    · simp only [vpGo, h, ite_false] at he
      obtain ⟨h1, h2, h3⟩ := ih (fc + 1) e he
      exact ⟨h1, by omega, by simp at h3 ⊢; omega⟩

/-- C1 counterexample: playing a 6-frame file through the timer-driven
`MP4VideoPage.update_frame` path with the model loaded classifies 5 frames
(one per rendered frame), not ceil(6/5) = 2 as the claim requires. -/
theorem c1_counterexample :
    (mp4Run true 6 playMP4State
        (List.replicate 6 (TickInput.readOk (ClassifyOutcome.pred 0)))).classified = 5 ∧
    (mp4Run true 6 playMP4State
        (List.replicate 6 (TickInput.readOk (ClassifyOutcome.pred 0)))).rendered = 5 ∧
    ((6 : Nat) + 4) / 5 = 2 ∧ ¬ ((5 : Nat) = 2) := by decide

/-- C1 (amended): the timer-driven `MP4VideoPage.update_frame` playback path
classifies every frame it renders (classified and rendered counts move in
lockstep); the every-5th-frame decimation exists only in the
`VideoProcessor.run` worker thread, which emits (and classifies) exactly
ceil(N/5) of the N file frames, namely those with indices 0, 5, 10, …. -/
theorem c1_amended_decimation :
    (∀ (total : Nat) (ticks : List TickInput) (s : MP4State),
      (mp4Run true total s ticks).classified + s.rendered =
        (mp4Run true total s ticks).rendered + s.classified) ∧
    (∀ (m : Bool) (ocs : List ClassifyOutcome),
      (videoProcessorRun m ocs).length = (ocs.length + 4) / 5 ∧
      ∀ e ∈ videoProcessorRun m ocs, e.1 % 5 = 0 ∧ e.1 < ocs.length) := by
  refine ⟨fun total ticks s => mp4Run_classified_rendered total ticks s,
    fun m ocs => ⟨?_, ?_⟩⟩
  · have h := vpGo_length m ocs 0
    simp only [videoProcessorRun]
    omega
  · intro e he
    obtain ⟨h1, _, h3⟩ := vpGo_mem m ocs 0 e he
    exact ⟨h1, by omega⟩

/-- C1 (amended) witness: on a concrete 2-frame file the worker thread's
single emission is for frame 0, a multiple of 5 inside the range. -/
theorem c1_amended_decimation_witness :
    ((0 : Nat), (1 : Nat)).1 % 5 = 0 ∧
    ((0 : Nat), (1 : Nat)).1 <
      ([ClassifyOutcome.pred 1, ClassifyOutcome.pred 0] : List ClassifyOutcome).length :=
  (c1_amended_decimation.2 true [ClassifyOutcome.pred 1, ClassifyOutcome.pred 0]).2
    (0, 1) (by decide)

/-- C9: the worker thread reports every sampled frame (ceil(N/5) emissions
for N frames); with the model unavailable every emitted prediction is 0; and
a frame whose processing raises is still emitted, with prediction 0, rather
than skipped or put in an error state. -/
theorem c9_worker_degraded_output :
    (∀ (m : Bool) (ocs : List ClassifyOutcome),
      (videoProcessorRun m ocs).length = (ocs.length + 4) / 5) ∧
    (∀ ocs : List ClassifyOutcome, ∀ e ∈ videoProcessorRun false ocs, e.2 = 0) ∧
    (∀ (m : Bool) (fc : Nat) (ocs : List ClassifyOutcome),
      vpGo m fc (ClassifyOutcome.raises :: ocs) =
        if fc % 5 = 0 then (fc, 0) :: vpGo m (fc + 1) ocs
        else vpGo m (fc + 1) ocs) := by
  refine ⟨fun m ocs => ?_, fun ocs => ?_, fun m fc ocs => rfl⟩
  · have h := vpGo_length m ocs 0
    simp only [videoProcessorRun]
    omega
  · have hz : ∀ oc : ClassifyOutcome, emitPred false oc = 0 := by
      intro oc; cases oc <;> rfl
    suffices h : ∀ fc : Nat, ∀ e ∈ vpGo false fc ocs, e.2 = 0 by
      exact h 0
    induction ocs with
    | nil => intro fc e he; simp [vpGo] at he
    | cons oc rest ih =>
      intro fc e he
      by_cases h5 : fc % 5 = 0
      · simp only [vpGo, h5, ite_true, List.mem_cons] at he
        rcases he with rfl | he
        · exact hz oc
        · exact ih (fc + 1) e he
      · simp only [vpGo, h5, ite_false] at he
        exact ih (fc + 1) e he

/-- C9 witness: with no model, the single emission for a concrete one-frame
file carries prediction 0. -/
theorem c9_worker_degraded_output_witness : ((0 : Nat), (0 : Nat)).2 = 0 :=
  c9_worker_degraded_output.2.1 [ClassifyOutcome.pred 1] (0, 0) (by decide)

/-- C10: a slider seek whose read succeeds and whose prediction call returns
(model loaded) moves the running tally up by exactly one, whatever the sought
frame index; two seeks to the same frame index add two, so a frame can be
counted repeatedly across seeks, independent of playback. -/
theorem c10_seek_increments_tally (s : MP4State) (n p q : Nat) :
    tallySum (seekFrame true n (SeekInput.readOk (ClassifyOutcome.pred p)) s) =
      tallySum s + 1 ∧
    tallySum (seekFrame true n (SeekInput.readOk (ClassifyOutcome.pred p))
        (seekFrame true n (SeekInput.readOk (ClassifyOutcome.pred q)) s)) =
      tallySum s + 2 := by
  constructor <;>
    by_cases hp : p = 1 <;> by_cases hq : q = 1 <;>
      simp [seekFrame, analyzeFrame, tallySum, hp, hq] <;> omega

/-- Helper: a file whose decode fails contributes nothing to the
accumulators — the loop skips it and continues. -/
theorem loadStep_decode_none (k : Nat) (XY : List Image × List Nat) (f : String) :
    loadStep k XY (f, none) = XY := by
  cases hl : labelOf f <;> simp [loadStep, hl]

/-- Helper: the `image_files.isEmpty` early return of `load_data` is
subsumed by folding over the (possibly empty) filtered list. -/
theorem load_data_some (entries : List (String × Option Image)) (k : Nat) :
    load_data (some entries) k =
      (entries.filter (fun e => isImageFile e.1)).foldl (loadStep k) ([], []) := by
  simp only [load_data]
  rcases h : entries.filter (fun e => isImageFile e.1) with _ | ⟨a, l⟩ <;> simp [h]

/-- C6: `load_data` is non-fatal on bad input — a missing directory returns
the empty pair, a directory with no supported image file returns the empty
pair, and a file whose decode fails is skipped while the remaining files are
processed exactly as if it were absent. -/
theorem c6_load_data_nonfatal :
    (∀ k : Nat, load_data none k = ([], [])) ∧
    (∀ (entries : List (String × Option Image)) (k : Nat),
      (entries.filter (fun e => isImageFile e.1)).isEmpty = true →
        load_data (some entries) k = ([], [])) ∧
    (∀ (pre post : List (String × Option Image)) (f : String) (k : Nat),
      load_data (some (pre ++ (f, (none : Option Image)) :: post)) k =
        load_data (some (pre ++ post)) k) := by
  refine ⟨fun k => rfl, fun entries k h => ?_, fun pre post f k => ?_⟩
  · simp [load_data, h]
  · rw [load_data_some, load_data_some, List.filter_append, List.filter_append,
      List.filter_cons]
    by_cases hf : isImageFile f
    · simp only [hf, ite_true]
      rw [List.foldl_append, List.foldl_append, List.foldl_cons, loadStep_decode_none]
    · simp [hf]

/-- C6 witness: a directory holding a single non-image file yields the empty
pair. -/
theorem c6_load_data_nonfatal_witness :
    load_data (some [(("a.txt" : String), (none : Option Image))]) 128 = ([], []) :=
  c6_load_data_nonfatal.2.1 [("a.txt", none)] 128 (by decide)

/-- Helper: the per-file loop keeps the image and label accumulators the
same length. -/
theorem loadFold_length_eq (k : Nat) (l : List (String × Option Image)) :
    ∀ XY : List Image × List Nat, XY.1.length = XY.2.length →
      (l.foldl (loadStep k) XY).1.length = (l.foldl (loadStep k) XY).2.length := by
  induction l with
  | nil => intro XY h; simpa using h
  | cons e rest ih =>
    intro XY h
    refine ih (loadStep k XY e) ?_
    cases hl : labelOf e.1 with
    | none => simpa [loadStep, hl] using h
    | some lab =>
      cases he : e.2 with
      | none => simpa [loadStep, hl, he] using h
      | some img => simp [loadStep, hl, he, h]

/-- Helper: every image the per-file loop appends has been resized to the
square target resolution. -/
theorem loadFold_square (k : Nat) (l : List (String × Option Image)) :
    ∀ XY : List Image × List Nat, (∀ img ∈ XY.1, img = Image.mk k k) →
      ∀ img ∈ (l.foldl (loadStep k) XY).1, img = Image.mk k k := by
  induction l with
  | nil => intro XY h; simpa using h
  | cons e rest ih =>
    intro XY h
    refine ih (loadStep k XY e) ?_
    cases hl : labelOf e.1 with
    | none => simpa [loadStep, hl] using h
    | some lab =>
      cases he : e.2 with
      | none => simpa [loadStep, hl, he] using h
      | some img =>
        intro x hx
        simp only [loadStep, hl, he, List.mem_append, List.mem_singleton] at hx
        rcases hx with hx | hx
        · exact h x hx
        · simpa [cvResize] using hx

/-- Helper: the per-file loop appends at most one image per file. -/
theorem loadFold_length_le (k : Nat) (l : List (String × Option Image)) :
    ∀ XY : List Image × List Nat,
      (l.foldl (loadStep k) XY).1.length ≤ XY.1.length + l.length := by
  induction l with
  | nil => intro XY; simp
  | cons e rest ih =>
    intro XY
    refine le_trans (ih (loadStep k XY e)) ?_
    have hstep : (loadStep k XY e).1.length ≤ XY.1.length + 1 := by
      cases hl : labelOf e.1 with
      | none => simp [loadStep, hl]
      | some lab =>
        cases he : e.2 with
        | none => simp [loadStep, hl, he]
        | some img => simp [loadStep, hl, he]
    simp only [List.length_cons]
    omega

/-- C7: for every directory input, `load_data` returns parallel sequences of
equal length, every returned image has the square target shape, and the
common length is at most the number of image files found. -/
theorem c7_parallel_arrays (listing : Option (List (String × Option Image))) (k : Nat) :
    (load_data listing k).1.length = (load_data listing k).2.length ∧
    (∀ img ∈ (load_data listing k).1, img = Image.mk k k) ∧
    (load_data listing k).1.length ≤ imageFileCount listing := by
  rcases listing with _ | entries
  · simp [load_data, imageFileCount]
  · rw [load_data_some]
    refine ⟨loadFold_length_eq k _ ([], []) rfl, loadFold_square k _ ([], []) (by simp), ?_⟩
    have h := loadFold_length_le k (entries.filter (fun e => isImageFile e.1)) ([], [])
    simpa [imageFileCount] using h

/-- C7 witness: a concrete one-file directory — equal lengths, the single
image is 128 × 128, and one sample from one image file. -/
theorem c7_parallel_arrays_witness :
    (load_data (some [("reading_01.jpg", some (Image.mk 20 30))]) 128).1.length =
      (load_data (some [("reading_01.jpg", some (Image.mk 20 30))]) 128).2.length ∧
    Image.mk 128 128 = Image.mk 128 128 ∧
    (load_data (some [("reading_01.jpg", some (Image.mk 20 30))]) 128).1.length ≤
      imageFileCount (some [("reading_01.jpg", some (Image.mk 20 30))]) :=
  ⟨(c7_parallel_arrays (some [("reading_01.jpg", some (Image.mk 20 30))]) 128).1,
   (c7_parallel_arrays (some [("reading_01.jpg", some (Image.mk 20 30))]) 128).2.1
     (Image.mk 128 128) (by decide),
   (c7_parallel_arrays (some [("reading_01.jpg", some (Image.mk 20 30))]) 128).2.2⟩

/-- Helper: an accuracy score is always a rational in [0, 1] (the empty test
set gives 0/0 = 0). -/
theorem accuracy_score_nonneg_le_one (y_true y_pred : List Nat) :
    0 ≤ accuracy_score y_true y_pred ∧ accuracy_score y_true y_pred ≤ 1 := by
  have hc : (y_true.zip y_pred).countP (fun p => p.1 == p.2) ≤ y_true.length := by
    calc (y_true.zip y_pred).countP (fun p => p.1 == p.2)
        ≤ (y_true.zip y_pred).length := List.countP_le_length _
      _ ≤ y_true.length := by rw [List.length_zip]; exact Nat.min_le_left _ _
  constructor
  · refine div_nonneg ?_ ?_ <;> positivity
  · rcases Nat.eq_zero_or_pos y_true.length with h0 | h0
    · obtain rfl := List.length_eq_zero.mp h0
      simp [accuracy_score]
    · have hL : (0 : ℚ) < (y_true.length : ℚ) := by exact_mod_cast h0
      rw [accuracy_score, div_le_one hL]
      exact_mod_cast hc

/-- C8: whenever the splitter yields its configured `n_splits = 5` folds, the
trainer records exactly 5 fold accuracies, each in [0, 1], and afterwards the
persisted classifier is the one refitted on the full feature set, persisted
together with the column-wise feature mean. -/
theorem c8_trainer_cv (C : Type) (fit : List FeatVec → List Nat → C)
    (predict : C → List FeatVec → List Nat) (features : List FeatVec)
    (y : List Nat) (folds : List (List Nat × List Nat))
    (hfolds : folds.length = n_splits) :
    (trainModelRun fit predict features y folds).1.length = 5 ∧
    (∀ a ∈ (trainModelRun fit predict features y folds).1, 0 ≤ a ∧ a ≤ 1) ∧
    (trainModelRun fit predict features y folds).2.1 = fit features y ∧
    (trainModelRun fit predict features y folds).2.2 = featureMean features := by
  refine ⟨?_, ?_, rfl, rfl⟩
  · simpa [trainModelRun, n_splits] using hfolds
  · intro a ha
    simp only [trainModelRun, List.mem_map] at ha
    obtain ⟨fold, _, rfl⟩ := ha
    exact accuracy_score_nonneg_le_one _ _

/-- C8 witness: a concrete 5-fold run with a trivial fitted model — five
accuracies come out. -/
theorem c8_trainer_cv_witness :
    (List.replicate 5 (([0], [0]) : List Nat × List Nat)).length = n_splits ∧
    (trainModelRun (fun _ _ => ()) (fun _ l => l.map (fun _ => 0)) [[(1 : ℚ)]] [1]
        (List.replicate 5 ([0], [0]))).1.length = 5 :=
  ⟨rfl, (c8_trainer_cv Unit (fun _ _ => ()) (fun _ l => l.map (fun _ => 0)) [[(1 : ℚ)]] [1]
      (List.replicate 5 ([0], [0])) rfl).1⟩
